import Mathlib

/-!
Verification of the green-environment sensor drivers.

This file gives a shallow embedding of the three Python modules
`ds18b20.py`, `giesomat.py` and `sensor.py` and proves properties of the
embedded code.  Python floats are modelled as exact rationals (`ℚ`),
Python ints as `Int`/`Nat`, raised exceptions as explicit error values,
the sysfs filesystem as an oracle mapping paths to directory listings,
and the pigpio tally counters as natural-number counters driven by an
environment that says how many edges arrive during each sleep window.
Unbounded `while` loops are modelled with an explicit fuel parameter;
running out of fuel is reported as a distinguished outcome, so a loop
that terminates for every fuel bound and one that never terminates are
distinguishable.
-/

/-- Python exception values raised by the modelled code paths.
`attributeError` models reading an instance attribute that was never
assigned, `typeError` models iterating over `None`, `indexError` models
indexing an empty list, and the remaining constructors carry the message
of the corresponding Python exception. -/
inductive PyErr
  | attributeError
  | typeError
  | indexError
  | valueError (msg : String)
  | fileNotFoundError (msg : String)
deriving DecidableEq

/-- One entry returned by `os.scandir`: its `name` and whether
`entry.is_dir()` holds. -/
structure DirEntry where
  name : String
  is_dir : Bool
deriving DecidableEq

/-- The sysfs filesystem as seen through `os.scandir`: `entries p` is
`some l` when directory `p` exists with listing `l`, and `none` when
scanning `p` raises `FileNotFoundError`. -/
structure FileSys where
  entries : String → Option (List DirEntry)

/-- Python `"w1_slave" in (item for item in os.scandir(...))` compares the
string against each `os.DirEntry` object with `==`; a `str` never equals a
`DirEntry`, so the comparison is `False` for every entry.  (The code never
compares against `entry.name`.) -/
def strEqDirEntry (_s : String) (_e : DirEntry) : Bool := false

/-- Python `repr` of a string, as used when a list of strings is formatted
into `"{}/{}".format(self._devices, dev)`. -/
def pyStrRepr (s : String) : String := "\x27" ++ s ++ "\x27"

/-- Python `str` of a list of strings, e.g. `['28-a', '28-b']`. -/
def pyListRepr (l : List String) : String :=
  "[" ++ String.intercalate ", " (l.map pyStrRepr) ++ "]"

/-- Python `str.rstrip()` on the underlying character list: trailing
whitespace is removed. -/
def rstripChars (l : List Char) : List Char :=
  (l.reverse.dropWhile (fun c => c.isWhitespace)).reverse

/-- Python `str.split(sep)` for a one-character separator `c`: splits at
every occurrence of `c`, keeping empty fields.  The result is always
non-empty. -/
def splitOnChar (c : Char) : List Char → List (List Char)
  | [] => [[]]
  | x :: xs =>
    let r := splitOnChar c xs
    if x = c then [] :: r
    else
      match r with
      | [] => [[x]]
      | t :: ts => (x :: t) :: ts

/-- Embeds `item.rstrip().split(" ")[-1]` from `DS18B20.get`/`run`: the
last whitespace-stripped, space-separated token of a line.  `split(" ")`
always returns a non-empty list, so the `[-1]` index never fails; the
default of `getLastD` is unreachable. -/
def lastToken (line : String) : String :=
  String.mk ((splitOnChar ' ' (rstripChars line.data)).getLastD [])

/-- Accumulator loop for parsing a run of decimal digits, as Python
`int()` does; returns `none` on the first non-digit character. -/
def parseNatAux (acc : Nat) : List Char → Option Nat
  | [] => some acc
  | c :: cs =>
    if c.isDigit then parseNatAux (acc * 10 + (c.toNat - 48)) cs
    else none

/-- Python `int(s)` restricted to the shapes the 1-Wire sysfs interface
emits: an optional sign followed by decimal digits.  `none` models the
`ValueError` that `int` raises on anything else (in particular on the
empty string). -/
def parseInt (s : String) : Option Int :=
  match s.data with
  | [] => none
  | c :: cs =>
    if c = '-' then
      match cs with
      | [] => none
      | _ => (parseNatAux 0 cs).map (fun n => -(n : Int))
    else if c = '+' then
      match cs with
      | [] => none
      | _ => (parseNatAux 0 cs).map (fun n => (n : Int))
    else (parseNatAux 0 (c :: cs)).map (fun n => (n : Int))

/-- Embeds `DS18B20.__to_celsius`: `return value / 1000.0`. -/
def DS18B20.to_celsius (value : Int) : ℚ := (value : ℚ) / 1000

/-- Embeds `DS18B20.__to_kelvin`: `return (value/1000) + 273.15`. -/
def DS18B20.to_kelvin (value : Int) : ℚ := (value : ℚ) / 1000 + 273.15

/-- Embeds `DS18B20.__to_fahrenheit`: `return (value/1000)*(9/5) + 32`. -/
def DS18B20.to_fahrenheit (value : Int) : ℚ := ((value : ℚ) / 1000) * (9 / 5) + 32

/-- Modelled from the spec (section 4.2), for the refinement claim C1:
`Celsius = raw/1000`. -/
def spec_celsius (raw : Int) : ℚ := (raw : ℚ) / 1000

/-- Modelled from the spec (section 4.2), for the refinement claim C1:
`Kelvin = raw/1000 + 273.15`. -/
def spec_kelvin (raw : Int) : ℚ := (raw : ℚ) / 1000 + 273.15

/-- Modelled from the spec (section 4.2), for the refinement claim C1:
`Fahrenheit = raw/1000 × 9/5 + 32`. -/
def spec_fahrenheit (raw : Int) : ℚ := (raw : ℚ) / 1000 * (9 / 5) + 32

/-- The value of `self._translator` in a `DS18B20` object: one of the
three private conversion methods chosen by `set_scale`. -/
inductive Translator
  | celsius
  | fahrenheit
  | kelvin
deriving DecidableEq

/-- Calling the stored conversion method on a raw millidegree value. -/
def Translator.apply : Translator → Int → ℚ
  | celsius => DS18B20.to_celsius
  | fahrenheit => DS18B20.to_fahrenheit
  | kelvin => DS18B20.to_kelvin

/-- The attribute state of a `DS18B20` object.  `devices` is an `Option`
because `self._devices` is read inside `set_devices` before it has ever
been assigned; `none` models the attribute being unset, in which case the
read raises `AttributeError`. -/
structure DS18B20State where
  scale : String
  translator : Translator
  idle_time : Int
  device_path : String
  devices : Option (List String)
deriving DecidableEq

/-- Embeds `DS18B20.set_scale`.  The source first raises `ValueError` when
the scale is not one of `("K", "F", "C")` and otherwise assigns
`self._scale` and then `self._translator` (an `if`/`elif`/`else` chain on
`self._scale`).  The result pairs the raised exception (if any) with the
object state after the call; on the error path no attribute has been
assigned, so the state is returned unchanged. -/
def DS18B20.set_scale (st : DS18B20State) (scale : String) :
    Option PyErr × DS18B20State :=
  if scale = "K" ∨ scale = "F" ∨ scale = "C" then
    let st1 := { st with scale := scale }
    let st2 :=
      if st1.scale = "C" then { st1 with translator := Translator.celsius }
      else if st1.scale = "F" then { st1 with translator := Translator.fahrenheit }
      else { st1 with translator := Translator.kelvin }
    (none, st2)
  else
    (some (PyErr.valueError
      ("Unknown scale type \x27" ++ scale ++ "\x27! Needs to be K, F or C!")), st)

/-- Embeds the comprehension
`[dev for dev in one_wire_devices if "w1_slave" in (item for item in
os.scandir("{}/{}".format(self._devices, dev)))]` from
`DS18B20.set_devices`.  For each candidate the condition first reads
`self._devices` (the OLD value — `AttributeError` when unset), then scans
`str(old)/dev` (`FileNotFoundError` when that path does not exist), and
keeps the candidate when the string `"w1_slave"` equals one of the
`DirEntry` objects — which is never the case (`strEqDirEntry`). -/
def activeFilter (fs : FileSys) (old : Option (List String)) :
    List String → Except PyErr (List String)
  | [] => Except.ok []
  | dev :: rest =>
    match old with
    | none => Except.error PyErr.attributeError
    | some ds =>
      match fs.entries (pyListRepr ds ++ "/" ++ dev) with
      | none => Except.error (PyErr.fileNotFoundError (pyListRepr ds ++ "/" ++ dev))
      | some items =>
        match activeFilter fs old rest with
        | Except.error e => Except.error e
        | Except.ok kept =>
          if items.any (fun item => strEqDirEntry "w1_slave" item) then
            Except.ok (dev :: kept)
          else Except.ok kept

/-- Embeds `DS18B20.set_devices`.  The argument is `none` for Python
`None` and `some l` for a list of device names (the scalar-wrapping line
`[devices] if not isinstance(devices, list) else devices` turns `None`
into the one-element list `[None]`, so `device_list` below is a list of
optional names and the `if device_list is not None` guard in the source is
always true).  The result pairs the raised exception (if any) with the
object state after the call; assignments to `self._devices` that happen
before a raise are kept, as in Python. -/
def DS18B20.set_devices (fs : FileSys) (st : DS18B20State)
    (devices : Option (List String)) : Option PyErr × DS18B20State :=
  let device_list : List (Option String) :=
    match devices with
    | none => [none]
    | some l => l.map (fun d => some d)
  match fs.entries st.device_path with
  | none => (some (PyErr.fileNotFoundError st.device_path), st)
  | some entries =>
    let one_wire_devices :=
      (entries.filter (fun d => d.is_dir && d.name != "w1_bus_master1")).map
        DirEntry.name
    match activeFilter fs st.devices one_wire_devices with
    | Except.error e => (some e, st)
    | Except.ok active =>
      let st1 := { st with devices := some active }
      let inter := active.filter (fun dev => device_list.contains (some dev))
      let st2 := { st1 with devices := some inter }
      if inter.length ≠ device_list.length then
        match devices with
        | none => (some PyErr.typeError, st2)
        | some l =>
          let missing := l.filter (fun dev => ! inter.contains dev)
          (some (PyErr.fileNotFoundError
            ("Provided devices [" ++ String.intercalate ", " missing ++
              "] cannot be found! Aborting.")), st2)
      else if inter.isEmpty then
        (some (PyErr.fileNotFoundError "No 1-wire device found!"), st2)
      else (none, st2)

/-- A freshly allocated `DS18B20` object before `__init__` runs: no
attribute is set.  Only `devices` is ever read before being assigned, so
it is the one field whose placeholder (`none` = unset) matters. -/
def DS18B20.freshState : DS18B20State :=
  { scale := "", translator := Translator.celsius, idle_time := 0,
    device_path := "", devices := none }

/-- Embeds `DS18B20.__init__(device, scale, idle_time)`: `set_scale`
first, then the `_idle_time` and `_device_path` assignments, then
`set_devices` on the wrapped device list.  Any exception aborts
construction. -/
def DS18B20.init (fs : FileSys) (device : List String) (scale : String)
    (idle_time : Int) : Except PyErr DS18B20State :=
  match DS18B20.set_scale DS18B20.freshState scale with
  | (some e, _) => Except.error e
  | (none, st1) =>
    let st2 := { st1 with idle_time := idle_time,
                          device_path := "/sys/bus/w1/devices" }
    match DS18B20.set_devices fs st2 (some device) with
    | (some e, _) => Except.error e
    | (none, st3) => Except.ok st3

/-- Embeds the per-device body of `DS18B20.get`/`run`: read all lines of
the device file, take the last space-separated token of each, report
`none` when the first token is not `"YES"`, and otherwise convert the
integer parsed from the second token with its 2-character `t=` prefix
stripped.  Missing lines raise `IndexError` and unparsable integers raise
`ValueError`, as in Python. -/
def readDevice (tr : Int → ℚ) (lines : List String) : Except PyErr (Option ℚ) :=
  let data := lines.map lastToken
  match data with
  | [] => Except.error PyErr.indexError
  | d0 :: rest =>
    if d0 = "YES" then
      match rest with
      | [] => Except.error PyErr.indexError
      | d1 :: _ =>
        match parseInt (String.mk (d1.data.drop 2)) with
        | some v => Except.ok (some (tr v))
        | none => Except.error (PyErr.valueError "invalid literal for int")
    else Except.ok none

/-- Embeds the `for device in self._devices` loop that builds
`current_temp` for one iteration: one optional reading per device, in
device order; the first failing read aborts the whole batch. -/
def readBatch (tr : Int → ℚ) (fileAt : String → List String) :
    List String → Except PyErr (List (Option ℚ))
  | [] => Except.ok []
  | device :: rest =>
    match readDevice tr (fileAt device) with
    | Except.error e => Except.error e
    | Except.ok v =>
      match readBatch tr fileAt rest with
      | Except.error e => Except.error e
      | Except.ok vs => Except.ok (v :: vs)

/-- Embeds the `for _ in range(iteration)` loop of `DS18B20.get`
accumulating `iteration_values`.  `files k d` gives the contents of
device `d`'s file as read during iteration `k` (the file is re-read every
iteration); the second `Nat` argument is the current iteration index.
`self._devices` is read inside the loop body, so an unset attribute only
raises when at least one iteration runs. -/
def getBatches (st : DS18B20State) (files : Nat → String → List String) :
    Nat → Nat → Except PyErr (List (List (Option ℚ)))
  | 0, _ => Except.ok []
  | n + 1, k =>
    match st.devices with
    | none => Except.error PyErr.attributeError
    | some devs =>
      match readBatch st.translator.apply (files k) devs with
      | Except.error e => Except.error e
      | Except.ok b =>
        match getBatches st files n (k + 1) with
        | Except.error e => Except.error e
        | Except.ok rest => Except.ok (b :: rest)

/-- Result shape of `get`: `iteration == 1` returns the single batch
itself (`iteration_values[0]`), any other iteration count returns the
list of batches. -/
inductive GetResult (α : Type)
  | single (batch : List α)
  | multi (batches : List (List α))
deriving DecidableEq

/-- Embeds `DS18B20.get(iteration)`.  A negative `iteration` makes
`range(iteration)` empty.  The `IndexError` branch mirrors
`iteration_values[0]` on an empty list; it is unreachable because
`iteration == 1` produces exactly one batch. -/
def DS18B20.get (st : DS18B20State) (files : Nat → String → List String)
    (iteration : Int) : Except PyErr (GetResult (Option ℚ)) :=
  match getBatches st files iteration.toNat 0 with
  | Except.error e => Except.error e
  | Except.ok ivs =>
    if iteration = 1 then
      match ivs with
      | [] => Except.error PyErr.indexError
      | b :: _ => Except.ok (GetResult.single b)
    else Except.ok (GetResult.multi ivs)

/-- An opaque value handler (`functor`) passed to `run`; the model only
tracks which handler each batch is delivered to.  `defaultFunctor` is the
class-level `default_functor` used when no handler is passed. -/
inductive Handler
  | defaultFunctor
  | custom (n : Nat)
deriving DecidableEq

/-- One invocation `functor(values, **kwargs)` recorded by the model:
which handler, the forwarded keyword options (opaque), and the delivered
batch. -/
structure HandlerCall (α : Type) where
  fn : Handler
  kwargs : String
  batch : List α
deriving DecidableEq

/-- How a modelled `while` loop ended: normal exit (`done`), fuel
exhausted before exit (`fuelOut` — for a negative iteration budget the
loop exhausts every fuel bound), or a Python exception. -/
inductive RunEnd
  | done
  | fuelOut
  | err (e : PyErr)
deriving DecidableEq

/-- Observable outcome of `DS18B20.run`: the handler invocations in
order, and how the loop ended. -/
structure RunOutD where
  calls : List (HandlerCall (Option ℚ))
  stop : RunEnd
deriving DecidableEq

/-- The invocation list for delivering given batches to handler `h` with
options `kw`, one call per batch in order. -/
def callsOf {α : Type} (h : Handler) (kw : String) (bs : List (List α)) :
    List (HandlerCall α) :=
  bs.map (fun b => { fn := h, kwargs := kw, batch := b })

/-- Embeds the `while iteration != 0` loop of `DS18B20.run`: positive
budgets are decremented once per pass, non-positive non-zero budgets are
left alone (so the loop never exits), each pass reads one batch over
`self._devices` and delivers it to the functor, and the trailing
`time.sleep` has no observable effect in this model.  `fuel` bounds the
number of unrolled passes; the `Nat` argument is the pass index used to
time-index `files`. -/
def DS18B20.run_aux (st : DS18B20State) (files : Nat → String → List String)
    (h : Handler) (kw : String) : Nat → Int → Nat → RunOutD
  | 0, iteration, _ =>
    if iteration = 0 then { calls := [], stop := RunEnd.done }
    else { calls := [], stop := RunEnd.fuelOut }
  | fuel + 1, iteration, k =>
    if iteration = 0 then { calls := [], stop := RunEnd.done }
    else
      let iteration' := if 0 < iteration then iteration - 1 else iteration
      match st.devices with
      | none => { calls := [], stop := RunEnd.err PyErr.attributeError }
      | some devs =>
        match readBatch st.translator.apply (files k) devs with
        | Except.error e => { calls := [], stop := RunEnd.err e }
        | Except.ok batch =>
          let out := DS18B20.run_aux st files h kw fuel iteration' (k + 1)
          { calls := { fn := h, kwargs := kw, batch := batch } :: out.calls,
            stop := out.stop }

/-- Embeds `DS18B20.run(iteration, functor, **kwargs)`. -/
def DS18B20.run (st : DS18B20State) (files : Nat → String → List String)
    (h : Handler) (kw : String) (fuel : Nat) (iteration : Int) : RunOutD :=
  DS18B20.run_aux st files h kw fuel iteration 0

/-- Embeds `DS18B20.run_endless(functor, **kwargs)`, whose body is
`self.run(iteration=-1, functor=functor, **kwargs)`. -/
def DS18B20.run_endless (st : DS18B20State) (files : Nat → String → List String)
    (h : Handler) (kw : String) (fuel : Nat) : RunOutD :=
  DS18B20.run st files h kw fuel (-1)

/-- The edge-arrival environment for the pulse sensors: `edges w i` is the
number of callback edges that pin index `i` accumulates during the `w`-th
`time.sleep(0.1 * sample_rate)` window executed by the call under
consideration. -/
structure TallyEnv where
  edges : Nat → Nat → Nat

/-- One sleep window: every tally counter accumulates the edges arriving
for its pin index (`i` is the index of the first counter in `t`). -/
def addEdges (edgeAt : Nat → Nat) : Nat → List Nat → List Nat
  | _, [] => []
  | i, v :: rest => (v + edgeAt i) :: addEdges edgeAt (i + 1) rest

/-- The tally vector produced by resetting all counters and then sleeping
through window `w`: `len` counters, counter `i` holding `edges w i`.
`edgeVec f i len` lists `f i, f (i+1), …` (`len` values). -/
def edgeVec (f : Nat → Nat) : Nat → Nat → List Nat
  | _, 0 => []
  | i, len + 1 => f i :: edgeVec f (i + 1) len

/-- The batch a pulse reader reports for sampling window `w` when all
counters were reset to zero immediately before the window. -/
def windowVec (env : TallyEnv) (w : Nat) (len : Nat) : List Nat :=
  edgeVec (env.edges w) 0 len

/-- The batches reported for `n` consecutive sampling windows starting at
window `w`, each preceded by a reset of all `len` counters. -/
def windowTrace (env : TallyEnv) (len : Nat) : Nat → Nat → List (List Nat)
  | 0, _ => []
  | n + 1, w => windowVec env w len :: windowTrace env len n (w + 1)

/-- Embeds the shared per-iteration body of the pulse readers
(`giesomat.py` and `sensor.py`, `get` and `run` alike):
`values = [call.tally() for call in self._call_backs]` (read the current
counters), then `for call in self._call_backs: call.reset_tally()` (reset
them to zero), then `time.sleep(0.1 * self._sample_rate)` (window `w`
accumulates).  Returns the list of reported batches for `n` iterations;
`t` is the counter vector on entry. -/
def tallyLoop (env : TallyEnv) : Nat → Nat → List Nat → List (List Nat)
  | 0, _, _ => []
  | n + 1, w, t =>
    t :: tallyLoop env n (w + 1) (addEdges (env.edges w) 0 (t.map (fun _ => 0)))

/-- The attribute state of a `GiesOMat` object (both the `giesomat.py`
and the `sensor.py` variant).  `tallies` holds the current value of each
pigpio callback counter, one per GPIO pin, in pin-list order. -/
structure GiesOMatState where
  gpio : List Int
  pulse : Int
  sample_rate : Int
  call_back_id : Int
  tallies : List Nat
deriving DecidableEq

/-- Embeds `GiesOMat.set_gpio`:
`self._gpio = gpio if isinstance(gpio, list) else [gpio]`.  The argument
is either a single pin (`Sum.inl`) or a list of pins (`Sum.inr`).  No
validation of any kind is performed; the call always completes. -/
def GiesOMat.set_gpio (st : GiesOMatState) (gpio : Sum Int (List Int)) :
    GiesOMatState :=
  match gpio with
  | Sum.inl g => { st with gpio := [g] }
  | Sum.inr l => { st with gpio := l }

/-- Embeds `GiesOMat.reset` as far as the counters are concerned: one
fresh callback per GPIO pin, each with `reset_tally()` applied, so the
tally vector is all zeros with one entry per pin. -/
def GiesOMat.reset (st : GiesOMatState) : GiesOMatState :=
  { st with tallies := st.gpio.map (fun _ => 0) }

/-- Embeds `GiesOMat.get(iteration)` from `giesomat.py`: reset all
tallies, sleep one pre-sample window (window 0), then run the
read/reset/sleep loop; `iteration == 1` returns the single batch itself.
The `getD` default is unreachable: `iteration == 1` produces exactly one
batch. -/
def GiesOMat.get (env : TallyEnv) (st : GiesOMatState) (iteration : Int) :
    GetResult Nat :=
  let t1 := addEdges (env.edges 0) 0 (st.tallies.map (fun _ => 0))
  let ivs := tallyLoop env iteration.toNat 1 t1
  if iteration = 1 then GetResult.single (ivs.getD 0 [])
  else GetResult.multi ivs

/-- Observable outcome of a pulse-variant `run`: the handler invocations
in order, how the loop ended, and the final counter vector. -/
structure RunOutG where
  calls : List (HandlerCall Nat)
  stop : RunEnd
  tallies : List Nat
deriving DecidableEq

/-- Embeds the `while iteration != 0` loop shared verbatim by
`GiesOMat.run` in `giesomat.py` and `sensor.py`: positive budgets are
decremented once per pass, each pass reads the counters, delivers them to
the functor, resets the counters and sleeps through the next window.
`fuel` bounds the number of unrolled passes, `w` is the index of the next
sleep window, `t` the counter vector on entry. -/
def pulseRunAux (env : TallyEnv) (h : Handler) (kw : String) :
    Nat → Int → Nat → List Nat → RunOutG
  | 0, iteration, _, t =>
    if iteration = 0 then { calls := [], stop := RunEnd.done, tallies := t }
    else { calls := [], stop := RunEnd.fuelOut, tallies := t }
  | fuel + 1, iteration, w, t =>
    if iteration = 0 then { calls := [], stop := RunEnd.done, tallies := t }
    else
      let iteration' := if 0 < iteration then iteration - 1 else iteration
      let out := pulseRunAux env h kw fuel iteration' (w + 1)
        (addEdges (env.edges w) 0 (t.map (fun _ => 0)))
      { calls := { fn := h, kwargs := kw, batch := t } :: out.calls,
        stop := out.stop, tallies := out.tallies }

/-- Embeds `GiesOMat.run(iteration, functor, **kwargs)` from
`giesomat.py`: reset all tallies, sleep one pre-sample window (window 0),
then the shared loop. -/
def GiesOMat.run (env : TallyEnv) (st : GiesOMatState) (h : Handler)
    (kw : String) (fuel : Nat) (iteration : Int) : RunOutG :=
  pulseRunAux env h kw fuel iteration 1
    (addEdges (env.edges 0) 0 (st.tallies.map (fun _ => 0)))

/-- `GiesOMat.run` together with the object state after the call: the
counters hold the final tally vector and every configuration attribute is
untouched (the source assigns no attribute inside `run`). -/
def GiesOMat.run_st (env : TallyEnv) (st : GiesOMatState) (h : Handler)
    (kw : String) (fuel : Nat) (iteration : Int) : RunOutG × GiesOMatState :=
  let out := GiesOMat.run env st h kw fuel iteration
  (out, { st with tallies := out.tallies })

/-- Embeds `GiesOMat.run_endless(functor, **kwargs)` from `giesomat.py`,
whose body is `self.run(iteration=-1, functor=functor, **kwargs)`. -/
def GiesOMat.run_endless (env : TallyEnv) (st : GiesOMatState) (h : Handler)
    (kw : String) (fuel : Nat) : RunOutG :=
  GiesOMat.run env st h kw fuel (-1)

/-- Embeds `GiesOMat.get(iteration)` from `sensor.py`: no initial reset
and no pre-sample window — the loop starts by reading whatever the
counters hold on entry (`t0`), and there is no `iteration == 1` special
case (the batch list itself is always returned). -/
def SensorGiesOMat.get (env : TallyEnv) (t0 : List Nat) (iteration : Int) :
    List (List Nat) :=
  tallyLoop env iteration.toNat 0 t0

/-- Embeds `GiesOMat.run(iteration, functor, **kwargs)` from `sensor.py`:
the same loop as `giesomat.py`, but with no initial reset and no
pre-sample window before the first read. -/
def SensorGiesOMat.run (env : TallyEnv) (t0 : List Nat) (h : Handler)
    (kw : String) (fuel : Nat) (iteration : Int) : RunOutG :=
  pulseRunAux env h kw fuel iteration 0 t0

/-- Embeds `GiesOMat.run_endless(functor, **kwargs)` from `sensor.py`,
whose body is `self.run(iteration=-1, **kwargs)`: the `functor` parameter
is accepted but NOT forwarded, so the inner `run` falls back to its
default argument `default_functor`. -/
def SensorGiesOMat.run_endless (env : TallyEnv) (t0 : List Nat)
    (_functor : Handler) (kw : String) (fuel : Nat) : RunOutG :=
  SensorGiesOMat.run env t0 Handler.defaultFunctor kw fuel (-1)

/-- A healthy sysfs tree: one sensor `28-a` (holding its `w1_slave` data
file) next to the bus-master pseudo-entry. -/
def fsGood : FileSys :=
  { entries := fun p =>
      if p = "/sys/bus/w1/devices" then
        some [{ name := "28-a", is_dir := true },
              { name := "w1_bus_master1", is_dir := true }]
      else if p = "/sys/bus/w1/devices/28-a" then
        some [{ name := "w1_slave", is_dir := false }]
      else none }

/-- `fsGood` extended with the garbage path `[]/28-a` that `set_devices`
scans on a second call after `self._devices` was assigned `[]`: even when
that path exists and holds `w1_slave`, the entry is a `DirEntry`, never
equal to the string `"w1_slave"`. -/
def fsGood2 : FileSys :=
  { entries := fun p =>
      if p = "[]/28-a" then some [{ name := "w1_slave", is_dir := false }]
      else fsGood.entries p }

/-- A fully configured `DS18B20` driver state: Celsius scale, one active
device. -/
def dsStC : DS18B20State :=
  { scale := "C", translator := Translator.celsius, idle_time := 2,
    device_path := "/sys/bus/w1/devices", devices := some ["28-a"] }

/-- Device-file contents: a valid reading whose raw value is `-1`. -/
def linesNeg1 : List String := ["crc=da YES\n", "t=-1\n"]

/-- Device-file contents: a not-ready reading (`NO` flag). -/
def linesNo : List String := ["crc=da NO\n", "t=25000\n"]

/-- Device-file contents: a valid reading whose raw value is `1000`. -/
def lines1000 : List String := ["crc=da YES\n", "t=1000\n"]

/-- Edge environment for the two-window scenario of the spec: window 0
tallies 5 edges, window 1 tallies 7 edges, on every pin. -/
def env57 : TallyEnv :=
  { edges := fun w _ => if w = 0 then 5 else if w = 1 then 7 else 0 }

/-- A one-pin `GiesOMat` state whose counter holds a stale value 12 at
entry. -/
def gmSt12 : GiesOMatState :=
  { gpio := [4], pulse := 20, sample_rate := 5, call_back_id := 0,
    tallies := [12] }

/-- A one-pin `GiesOMat` state with a clean (zero) counter at entry. -/
def gmSt0 : GiesOMatState :=
  { gpio := [4], pulse := 20, sample_rate := 5, call_back_id := 0,
    tallies := [0] }

/-- Shifting the start index out of a `List.range` map. -/
theorem range_map_shift {α : Type} (g : Nat → α) (k n : Nat) :
    (List.range (n + 1)).map (fun j => g (k + j)) =
      g k :: (List.range n).map (fun j => g (k + 1 + j)) := by
  rw [List.range_succ_eq_map, List.map_cons, List.map_map]
  exact congrArg (List.cons (g k))
    (List.map_congr_left (fun a _ => congrArg g (by omega)))

/-- When every device read succeeds, the batch is the in-order list of
per-device readings. -/
theorem readBatch_map (tr : Int → ℚ) (fileAt : String → List String)
    (g : String → Option ℚ) :
    ∀ devs : List String,
      (∀ d ∈ devs, readDevice tr (fileAt d) = Except.ok (g d)) →
      readBatch tr fileAt devs = Except.ok (devs.map g) := by
  intro devs
  induction devs with
  | nil => intro _; rfl
  | cons d rest ih =>
    intro hall
    have hd := hall d (List.mem_cons_self d rest)
    have hrest := ih (fun x hx => hall x (List.mem_cons_of_mem d hx))
    simp [readBatch, hd, hrest]

/-- When every per-iteration batch read succeeds, `getBatches` collects
the batches in iteration order. -/
theorem getBatches_ok (st : DS18B20State) (files : Nat → String → List String)
    (devs : List String) (bk : Nat → List (Option ℚ))
    (hdev : st.devices = some devs)
    (hb : ∀ j, readBatch st.translator.apply (files j) devs = Except.ok (bk j)) :
    ∀ n k, getBatches st files n k =
      Except.ok ((List.range n).map (fun j => bk (k + j))) := by
  intro n
  induction n with
  | zero => intro k; rfl
  | succ n ih =>
    intro k
    rw [range_map_shift]
    simp [getBatches, hdev, hb k, ih (k + 1)]

/-- `getBatches` from iteration index 0, with the shift normalised
away. -/
theorem getBatches_ok_zero (st : DS18B20State) (files : Nat → String → List String)
    (devs : List String) (bk : Nat → List (Option ℚ))
    (hdev : st.devices = some devs)
    (hb : ∀ j, readBatch st.translator.apply (files j) devs = Except.ok (bk j))
    (n : Nat) :
    getBatches st files n 0 = Except.ok ((List.range n).map bk) := by
  have := getBatches_ok st files devs bk hdev hb n 0
  simpa [Nat.zero_add] using this

/-- A bounded-budget `run` that reads all its batches successfully makes
exactly one handler call per batch and exits normally. -/
theorem ds_run_aux_done (st : DS18B20State) (files : Nat → String → List String)
    (h : Handler) (kw : String) :
    ∀ n fuel k : Nat, ∀ bs : List (List (Option ℚ)), n ≤ fuel →
      getBatches st files n k = Except.ok bs →
      DS18B20.run_aux st files h kw fuel (n : Int) k =
        { calls := callsOf h kw bs, stop := RunEnd.done } := by
  intro n
  induction n with
  | zero =>
    intro fuel k bs _ hg
    simp only [getBatches] at hg
    injection hg with hg
    subst hg
    cases fuel <;> simp [DS18B20.run_aux, callsOf]
  | succ n ih =>
    intro fuel k bs hle hg
    cases fuel with
    | zero => omega
    | succ f =>
      simp only [getBatches] at hg
      split at hg
      next => cases hg
      next devs hdev =>
        split at hg
        next e hrb => cases hg
        next b hrb =>
          split at hg
          next e hgb => cases hg
          next rest hgb =>
            injection hg with hg
            subst hg
            have h0 : ¬((n + 1 : Nat) : Int) = 0 := by omega
            have h1 : (0 : Int) < ((n + 1 : Nat) : Int) := by omega
            have h2 : ((n + 1 : Nat) : Int) - 1 = (n : Int) := by omega
            simp only [DS18B20.run_aux, if_neg h0, if_pos h1, h2, hdev, hrb]
            rw [ih f (k + 1) rest (by omega) hgb]
            simp [callsOf]

/-- A sleep window preserves the number of counters. -/
theorem addEdges_length (f : Nat → Nat) :
    ∀ (t : List Nat) (i : Nat), (addEdges f i t).length = t.length := by
  intro t
  induction t with
  | nil => intro i; rfl
  | cons v rest ih => intro i; simp [addEdges, ih (i + 1)]

/-- Resetting all counters and sleeping through one window yields exactly
the per-pin edge vector of that window. -/
theorem addEdges_map_zero (f : Nat → Nat) :
    ∀ (t : List Nat) (i : Nat),
      addEdges f i (t.map (fun _ => 0)) = edgeVec f i t.length := by
  intro t
  induction t with
  | nil => intro i; rfl
  | cons v rest ih =>
    intro i
    simp only [List.map_cons, addEdges, edgeVec, List.length_cons,
      Nat.zero_add, ih (i + 1)]

/-- An edge vector lists one tally per counter. -/
theorem edgeVec_length (f : Nat → Nat) :
    ∀ (len i : Nat), (edgeVec f i len).length = len := by
  intro len
  induction len with
  | zero => intro i; rfl
  | succ len ih => intro i; simp [edgeVec, ih (i + 1)]

/-- A window trace has one batch per window. -/
theorem windowTrace_length (env : TallyEnv) (len : Nat) :
    ∀ (n w : Nat), (windowTrace env len n w).length = n := by
  intro n
  induction n with
  | zero => intro w; rfl
  | succ n ih => intro w; simp [windowTrace, ih (w + 1)]

/-- Every batch of a window trace has one entry per counter. -/
theorem windowTrace_mem_length (env : TallyEnv) (len : Nat) :
    ∀ (n w : Nat) (b : List Nat), b ∈ windowTrace env len n w → b.length = len := by
  intro n
  induction n with
  | zero => intro w b hb; cases hb
  | succ n ih =>
    intro w b hb
    rcases List.mem_cons.mp hb with hb | hb
    · subst hb; exact edgeVec_length _ _ _
    · exact ih (w + 1) b hb

/-- The read/reset/sleep loop reports the entry tallies first and then
exactly the per-window edge vectors of the following windows. -/
theorem tallyLoop_succ (env : TallyEnv) :
    ∀ (n w : Nat) (t : List Nat),
      tallyLoop env (n + 1) w t = t :: windowTrace env t.length n w := by
  intro n
  induction n with
  | zero => intro w t; rfl
  | succ n ih =>
    intro w t
    rw [tallyLoop, ih (w + 1) (addEdges (env.edges w) 0 (t.map (fun _ => 0)))]
    rw [addEdges_map_zero, edgeVec_length]
    rfl

/-- The loop reports one batch per iteration. -/
theorem tallyLoop_length (env : TallyEnv) :
    ∀ (n w : Nat) (t : List Nat), (tallyLoop env n w t).length = n := by
  intro n
  induction n with
  | zero => intro w t; rfl
  | succ n ih =>
    intro w t
    simp [tallyLoop, ih (w + 1)]

/-- Every batch the loop reports has one entry per counter. -/
theorem tallyLoop_mem_length (env : TallyEnv) :
    ∀ (n w : Nat) (t b : List Nat), b ∈ tallyLoop env n w t → b.length = t.length := by
  intro n
  induction n with
  | zero => intro w t b hb; cases hb
  | succ n ih =>
    intro w t b hb
    rcases List.mem_cons.mp hb with hb | hb
    · subst hb; rfl
    · have := ih (w + 1) (addEdges (env.edges w) 0 (t.map (fun _ => 0))) b hb
      rwa [addEdges_length, List.length_map] at this

/-- A bounded-budget pulse `run` loop makes exactly one handler call per
loop batch and exits normally. -/
theorem pulseRunAux_done (env : TallyEnv) (h : Handler) (kw : String) :
    ∀ n fuel w : Nat, ∀ t : List Nat, n ≤ fuel →
      (pulseRunAux env h kw fuel (n : Int) w t).calls =
          callsOf h kw (tallyLoop env n w t)
      ∧ (pulseRunAux env h kw fuel (n : Int) w t).stop = RunEnd.done := by
  intro n
  induction n with
  | zero =>
    intro fuel w t _
    cases fuel <;> simp [pulseRunAux, tallyLoop, callsOf]
  | succ n ih =>
    intro fuel w t hle
    cases fuel with
    | zero => omega
    | succ f =>
      have h0 : ¬((n + 1 : Nat) : Int) = 0 := by omega
      have h1 : (0 : Int) < ((n + 1 : Nat) : Int) := by omega
      have h2 : ((n + 1 : Nat) : Int) - 1 = (n : Int) := by omega
      obtain ⟨ihc, ihs⟩ :=
        ih f (w + 1) (addEdges (env.edges w) 0 (t.map (fun _ => 0))) (by omega)
      constructor
      · simp only [pulseRunAux, if_neg h0, if_pos h1, h2, ihc]
        simp [tallyLoop, callsOf]
      · simp only [pulseRunAux, if_neg h0, if_pos h1, h2, ihs]

/-- Closed form of `GiesOMat.get` (the `giesomat.py` variant): every
reported batch is exactly the edge vector of its own sampling window;
the entry tallies influence nothing but the number of counters. -/
theorem giesomat_get_eq (env : TallyEnv) (st : GiesOMatState) :
    ∀ it : Int,
      GiesOMat.get env st it =
        if it = 1 then
          GetResult.single (windowVec env 0 st.tallies.length)
        else GetResult.multi (windowTrace env st.tallies.length it.toNat 0) := by
  intro it
  unfold GiesOMat.get
  rw [addEdges_map_zero]
  by_cases h1 : it = 1
  · subst h1
    rfl
  · rw [if_neg h1, if_neg h1]
    cases hn : it.toNat with
    | zero => rfl
    | succ m =>
      rw [tallyLoop_succ]
      show GetResult.multi
        (edgeVec (env.edges 0) 0 st.tallies.length ::
          windowTrace env (edgeVec (env.edges 0) 0 st.tallies.length).length m 1) = _
      rw [edgeVec_length]
      rfl

/-- No `DirEntry` ever equals the string `"w1_slave"`. -/
theorem any_strEq_false (items : List DirEntry) :
    items.any (fun item => strEqDirEntry "w1_slave" item) = false := by
  induction items with
  | nil => rfl
  | cons x xs ih => simp [List.any_cons, strEqDirEntry, ih]

/-- Whenever the active-device comprehension finishes without raising, it
keeps nothing: its membership test compares a string with `DirEntry`
objects and never holds. -/
theorem activeFilter_ok_empty (fs : FileSys) (old : Option (List String)) :
    ∀ (l : List String) (a : List String),
      activeFilter fs old l = Except.ok a → a = [] := by
  intro l
  induction l with
  | nil =>
    intro a h
    simp only [activeFilter] at h
    injection h with h
    exact h.symm
  | cons dev rest ih =>
    intro a h
    simp only [activeFilter] at h
    split at h
    · cases h
    · split at h
      · cases h
      · split at h
        · cases h
        next kept hkept =>
          rw [any_strEq_false] at h
          simp only [Bool.false_eq_true, if_false] at h
          injection h with h
          subst h
          exact ih kept hkept

/-- Every call of the embedded `set_devices` raises: the active-device
filter keeps nothing (or raising on the way), so the final set is always
empty and one of the three error paths is reached. -/
theorem set_devices_raises (fs : FileSys) (st : DS18B20State)
    (devices : Option (List String)) :
    (DS18B20.set_devices fs st devices).1.isSome = true := by
  cases hfs : fs.entries st.device_path with
  | none => simp [DS18B20.set_devices, hfs]
  | some entries =>
    cases haf : activeFilter fs st.devices
        ((entries.filter (fun d => d.is_dir && d.name != "w1_bus_master1")).map
          DirEntry.name) with
    | error e => simp [DS18B20.set_devices, hfs, haf]
    | ok active =>
      have ha : active = [] := activeFilter_ok_empty _ _ _ _ haf
      subst ha
      cases devices with
      | none => simp [DS18B20.set_devices, hfs, haf]
      | some l =>
        cases l with
        | nil => simp [DS18B20.set_devices, hfs, haf]
        | cons d ds => simp [DS18B20.set_devices, hfs, haf]

/-- Claim C1: for every integer raw millidegree value the conversion
functions of `ds18b20.py` satisfy the spec formulas
`Celsius = raw/1000`, `Kelvin = raw/1000 + 273.15` and
`Fahrenheit = (raw/1000)*(9/5) + 32` exactly (floats modelled as
rationals); in particular raw 0 yields 0, 32 and 273.15 and raw 25000
yields 25, 77 and 298.15. -/
theorem C1_conversion_formulas :
    (∀ v : Int, DS18B20.to_celsius v = spec_celsius v)
    ∧ (∀ v : Int, DS18B20.to_kelvin v = spec_kelvin v)
    ∧ (∀ v : Int, DS18B20.to_fahrenheit v = spec_fahrenheit v)
    ∧ DS18B20.to_celsius 0 = 0
    ∧ DS18B20.to_fahrenheit 0 = 32
    ∧ DS18B20.to_kelvin 0 = 273.15
    ∧ DS18B20.to_celsius 25000 = 25
    ∧ DS18B20.to_fahrenheit 25000 = 77
    ∧ DS18B20.to_kelvin 25000 = 298.15 := by
  refine ⟨fun v => rfl, fun v => rfl, fun v => rfl, ?_, ?_, ?_, ?_, ?_, ?_⟩ <;>
    norm_num [DS18B20.to_celsius, DS18B20.to_kelvin, DS18B20.to_fahrenheit]

/-- Claim C6: for every scale string outside {K, F, C}, `set_scale`
raises the `ValueError` naming the bad scale, leaves the driver state
(including the stored scale and translator) unchanged, and `DS18B20`
construction with that scale fails with the same error — for every
filesystem, i.e. before any reading is attempted. -/
theorem C6_invalid_scale_rejected (st : DS18B20State) (s : String)
    (fs : FileSys) (device : List String) (idle : Int)
    (hK : s ≠ "K") (hF : s ≠ "F") (hC : s ≠ "C") :
    (DS18B20.set_scale st s).1 = some (PyErr.valueError
        ("Unknown scale type \x27" ++ s ++ "\x27! Needs to be K, F or C!"))
    ∧ (DS18B20.set_scale st s).2 = st
    ∧ DS18B20.init fs device s idle = Except.error (PyErr.valueError
        ("Unknown scale type \x27" ++ s ++ "\x27! Needs to be K, F or C!")) := by
  have hcond : ¬(s = "K" ∨ s = "F" ∨ s = "C") := by
    rintro (h | h | h)
    exacts [hK h, hF h, hC h]
  have hss : ∀ st0 : DS18B20State, DS18B20.set_scale st0 s =
      (some (PyErr.valueError
        ("Unknown scale type \x27" ++ s ++ "\x27! Needs to be K, F or C!")), st0) := by
    intro st0
    simp [DS18B20.set_scale, hcond]
  refine ⟨by rw [hss st], by rw [hss st], ?_⟩
  simp [DS18B20.init, hss DS18B20.freshState]

/-- Claim C6 witness: the concrete invalid scale `"X"`. -/
theorem C6_witness :
    (("X" : String) ≠ "K" ∧ ("X" : String) ≠ "F" ∧ ("X" : String) ≠ "C")
    ∧ ((DS18B20.set_scale dsStC "X").1 = some (PyErr.valueError
        ("Unknown scale type \x27" ++ "X" ++ "\x27! Needs to be K, F or C!"))
      ∧ (DS18B20.set_scale dsStC "X").2 = dsStC
      ∧ DS18B20.init fsGood ["28-a"] "X" 2 = Except.error (PyErr.valueError
        ("Unknown scale type \x27" ++ "X" ++ "\x27! Needs to be K, F or C!"))) :=
  ⟨⟨by decide, by decide, by decide⟩,
    C6_invalid_scale_rejected dsStC "X" fsGood ["28-a"] 2
      (by decide) (by decide) (by decide)⟩

/-- Claim C9: for both driver variants, `run` with `iteration = 0` makes
zero handler calls and exits the loop immediately (the guard
`iteration != 0` is false on entry, for every fuel bound), and every
configuration attribute of the driver is unchanged (for the pulse variant
only the tally counters move, by the pre-loop reset and window). -/
theorem C9_run_zero_iterations (st : DS18B20State)
    (files : Nat → String → List String) (h : Handler) (kw : String)
    (fuel : Nat) (env : TallyEnv) (gst : GiesOMatState) (gh : Handler)
    (gkw : String) (gfuel : Nat) :
    DS18B20.run st files h kw fuel 0 = { calls := [], stop := RunEnd.done }
    ∧ (GiesOMat.run_st env gst gh gkw gfuel 0).1.calls = []
    ∧ (GiesOMat.run_st env gst gh gkw gfuel 0).1.stop = RunEnd.done
    ∧ (GiesOMat.run_st env gst gh gkw gfuel 0).2.gpio = gst.gpio
    ∧ (GiesOMat.run_st env gst gh gkw gfuel 0).2.pulse = gst.pulse
    ∧ (GiesOMat.run_st env gst gh gkw gfuel 0).2.sample_rate = gst.sample_rate
    ∧ (GiesOMat.run_st env gst gh gkw gfuel 0).2.call_back_id = gst.call_back_id := by
  refine ⟨?_, ?_, ?_, ?_, ?_, ?_, ?_⟩ <;> cases fuel <;> cases gfuel <;> rfl

/-- Claim C5 counterexample: `GiesOMat.set_gpio` with an empty pin list
completes (it is a total function raising nothing) and leaves the active
endpoint set empty, so configuring zero endpoints does NOT raise. -/
theorem C5_counterexample :
    GiesOMat.set_gpio gmSt0 (Sum.inr []) =
      { gpio := [], pulse := 20, sample_rate := 5, call_back_id := 0,
        tallies := [0] }
    ∧ (GiesOMat.set_gpio gmSt0 (Sum.inr [])).gpio = [] :=
  ⟨rfl, rfl⟩

/-- Claim C5 (amended): `DS18B20.set_devices` never returns successfully
at all — every call raises (so a successful configuration never leaves an
empty device set) — while `GiesOMat.set_gpio` performs no emptiness check
and completes with zero active endpoints when given an empty list. -/
theorem C5_amended_nonempty_invariant :
    (∀ (fs : FileSys) (st : DS18B20State) (devices : Option (List String)),
      (DS18B20.set_devices fs st devices).1.isSome = true)
    ∧ (∀ st : GiesOMatState, (GiesOMat.set_gpio st (Sum.inr [])).gpio = []) :=
  ⟨set_devices_raises, fun _ => rfl⟩

/-- Claim C7 (code bug in `sensor.py`): `run_endless(functor=h)` calls
`self.run(iteration=-1, **kwargs)` WITHOUT forwarding the functor, so the
loop invokes `default_functor` instead of the supplied handler (first two
conjuncts evaluate a concrete run: both recorded calls went to
`default_functor`, not to `custom 0`); the call also does not exit within
the given fuel.  The last conjunct shows the drop holds for every
argument: `run_endless` equals `run` at `-1` with `default_functor`. -/
theorem C7_sensor_run_endless_drops_functor :
    (SensorGiesOMat.run_endless env57 [0] (Handler.custom 0) "opts" 2).calls.map
        HandlerCall.fn = [Handler.defaultFunctor, Handler.defaultFunctor]
    ∧ Handler.defaultFunctor ≠ Handler.custom 0
    ∧ (SensorGiesOMat.run_endless env57 [0] (Handler.custom 0) "opts" 2).stop
        = RunEnd.fuelOut
    ∧ (∀ (h : Handler) (kw : String) (fuel : Nat) (t0 : List Nat),
        SensorGiesOMat.run_endless env57 t0 h kw fuel =
          SensorGiesOMat.run env57 t0 Handler.defaultFunctor kw fuel (-1)) :=
  ⟨by decide, by decide, by decide, fun _ _ _ _ => rfl⟩

/-- Claim C2 counterexample: with the Celsius scale configured, a 1-Wire
reading flagged `YES` carrying raw value exactly `-1` makes `get` return
the CONVERTED temperature `-1/1000`, not an absent value — the code
contains no `-1` sentinel. -/
theorem C2_counterexample :
    DS18B20.get dsStC (fun _ _ => linesNeg1) 1 =
      Except.ok (GetResult.single [some (DS18B20.to_celsius (-1))])
    ∧ DS18B20.to_celsius (-1) = -1 / 1000
    ∧ DS18B20.get dsStC (fun _ _ => linesNeg1) 1 ≠
        Except.ok (GetResult.single [(none : Option ℚ)]) := by
  refine ⟨rfl, by norm_num [DS18B20.to_celsius], ?_⟩
  have h1 : DS18B20.get dsStC (fun _ _ => linesNeg1) 1 =
      Except.ok (GetResult.single [some (DS18B20.to_celsius (-1))]) := rfl
  rw [h1]
  simp

/-- Claim C2 (amended): no `-1` sentinel exists — for every configured
scale, a `YES` reading with raw value `-1` is converted by the scale
formula and reported as a present value by both `get` and `run`; an
absent value (`None`) is reported exactly when the validity token is not
`"YES"`. -/
theorem C2_no_sentinel (tl : Translator) :
    DS18B20.get { dsStC with translator := tl } (fun _ _ => linesNeg1) 1 =
      Except.ok (GetResult.single [some (tl.apply (-1))])
    ∧ (DS18B20.run { dsStC with translator := tl } (fun _ _ => linesNeg1)
        Handler.defaultFunctor "" 1 1).calls =
        [{ fn := Handler.defaultFunctor, kwargs := "",
           batch := [some (tl.apply (-1))] }]
    ∧ (some (tl.apply (-1)) : Option ℚ) ≠ none
    ∧ DS18B20.get { dsStC with translator := tl } (fun _ _ => linesNo) 1 =
      Except.ok (GetResult.single [(none : Option ℚ)]) :=
  ⟨rfl, rfl, by simp, rfl⟩

/-- Claim C4 (code bug): `set_devices` can never succeed, even on a
healthy filesystem where the requested device exists and holds a
`w1_slave` file.  On a fresh driver it raises `AttributeError` (the
comprehension path interpolates `self._devices` — unset — instead of
`self._device_path`); after `self._devices` holds a value it scans a
garbage path like `['28-a']/28-a` and raises `FileNotFoundError`; and
even if that garbage path existed, the membership test compares the
string `"w1_slave"` with `DirEntry` objects, keeps nothing, and the call
reports every requested device as missing. -/
theorem C4_set_devices_always_fails :
    DS18B20.set_devices fsGood
        { DS18B20.freshState with device_path := "/sys/bus/w1/devices" }
        (some ["28-a"]) =
      (some PyErr.attributeError,
        { DS18B20.freshState with device_path := "/sys/bus/w1/devices" })
    ∧ (DS18B20.set_devices fsGood dsStC (some ["28-a"])).1 =
        some (PyErr.fileNotFoundError "[\x2728-a\x27]/28-a")
    ∧ (DS18B20.set_devices fsGood2 { dsStC with devices := some [] }
        (some ["28-a"])).1 =
        some (PyErr.fileNotFoundError
          "Provided devices [28-a] cannot be found! Aborting.") :=
  ⟨rfl, rfl, rfl⟩

/-- Claim C8 counterexample: in the `sensor.py` variant `get` performs no
reset and no pre-sample window before the first read, so with clean entry
counters and simulated window tallies 5 then 7 the two reported batches
are 0 and 5 — not 5 and 7.  This refutes the claim for that variant. -/
theorem C8_counterexample :
    SensorGiesOMat.get env57 [0] 2 = [[0], [5]]
    ∧ SensorGiesOMat.get env57 [0] 2 ≠ [[5], [7]] :=
  ⟨by decide, by decide⟩

/-- The loop of `giesomat.py`'s `get`/`run` after the initial reset and
pre-sample window reports exactly the per-window edge vectors, whatever
the entry counters held. -/
theorem tallyLoop_after_reset (env : TallyEnv) (t : List Nat) :
    ∀ n : Nat, tallyLoop env n 1 (addEdges (env.edges 0) 0 (t.map (fun _ => 0))) =
      windowTrace env t.length n 0 := by
  intro n
  cases n with
  | zero => rfl
  | succ m =>
    rw [addEdges_map_zero, tallyLoop_succ, edgeVec_length]
    rfl

/-- Claim C8 (amended): in `giesomat.py` the tally counters are reset
before the initial sampling window and immediately after every read, so
in `get` and `run` alike the k-th reported batch is exactly the edge
vector of the k-th window, independent of the counters' entry values —
in particular windows tallying 5 then 7 are reported as 5 and 7.  In
`sensor.py` there is no reset or pre-sample window before the first read:
the first reported batch is the counter state accumulated before the
call, and only the later batches are per-window. -/
theorem C8_amended_reset_per_window (env : TallyEnv) (st : GiesOMatState)
    (h : Handler) (kw : String) (n fuel : Nat) (t0 : List Nat)
    (hfuel : n ≤ fuel) :
    GiesOMat.get env st (1 : Int) =
        GetResult.single (windowVec env 0 st.tallies.length)
    ∧ ((n : Int) ≠ 1 →
        GiesOMat.get env st (n : Int) =
          GetResult.multi (windowTrace env st.tallies.length n 0))
    ∧ (GiesOMat.run env st h kw fuel (n : Int)).calls =
        callsOf h kw (windowTrace env st.tallies.length n 0)
    ∧ GiesOMat.get env57 gmSt12 2 = GetResult.multi [[5], [7]]
    ∧ SensorGiesOMat.get env t0 ((n : Int) + 1) =
        t0 :: windowTrace env t0.length n 0 := by
  refine ⟨?_, ?_, ?_, by decide, ?_⟩
  · rw [giesomat_get_eq]
    simp
  · intro hne
    rw [giesomat_get_eq, if_neg hne, Int.toNat_natCast]
  · have hcalls := (pulseRunAux_done env h kw n fuel 1
      (addEdges (env.edges 0) 0 (st.tallies.map (fun _ => 0))) hfuel).1
    show (pulseRunAux env h kw fuel (n : Int) 1
      (addEdges (env.edges 0) 0 (st.tallies.map (fun _ => 0)))).calls = _
    rw [hcalls, tallyLoop_after_reset]
  · have hcast : ((n : Int) + 1).toNat = n + 1 := by omega
    show tallyLoop env ((n : Int) + 1).toNat 0 t0 = _
    rw [hcast, tallyLoop_succ]

/-- Claim C8 witness: the amended theorem applied at the concrete
two-window scenario (hypothesis `2 ≤ 2` discharged). -/
theorem C8_witness :
    (2 : Nat) ≤ 2 ∧ GiesOMat.get env57 gmSt12 2 = GetResult.multi [[5], [7]] :=
  ⟨by decide,
    (C8_amended_reset_per_window env57 gmSt0 Handler.defaultFunctor "" 2 2 [3]
      (by decide)).2.2.2.1⟩

/-- Claim C10: in `ds18b20.py` and `giesomat.py`, `get` with
`iteration = 1` returns the single batch itself (one entry per active
endpoint), while `get` with any other iteration count `n ≥ 0` returns the
list of `n` batches — differently shaped results. -/
theorem C10_get_shape (st : DS18B20State) (files : Nat → String → List String)
    (devs : List String) (bk : Nat → List (Option ℚ))
    (env : TallyEnv) (gst : GiesOMatState)
    (hdev : st.devices = some devs)
    (hb : ∀ j, readBatch st.translator.apply (files j) devs = Except.ok (bk j)) :
    DS18B20.get st files 1 = Except.ok (GetResult.single (bk 0))
    ∧ (∀ n : Nat, (n : Int) ≠ 1 →
        DS18B20.get st files (n : Int) =
          Except.ok (GetResult.multi ((List.range n).map bk))
        ∧ ((List.range n).map bk).length = n)
    ∧ GiesOMat.get env gst 1 =
        GetResult.single (windowVec env 0 gst.tallies.length)
    ∧ (∀ n : Nat, (n : Int) ≠ 1 →
        GiesOMat.get env gst (n : Int) =
          GetResult.multi (windowTrace env gst.tallies.length n 0)
        ∧ (windowTrace env gst.tallies.length n 0).length = n) := by
  refine ⟨?_, ?_, ?_, ?_⟩
  · have hg1 := getBatches_ok_zero st files devs bk hdev hb 1
    have hr1 : (List.range 1).map bk = [bk 0] := rfl
    rw [hr1] at hg1
    simp [DS18B20.get, hg1]
  · intro n hn
    have hn' : n ≠ 1 := by omega
    have hgn := getBatches_ok_zero st files devs bk hdev hb n
    constructor
    · simp [DS18B20.get, Int.toNat_natCast, hgn, hn']
    · simp
  · rw [giesomat_get_eq]
    simp
  · intro n hn
    rw [giesomat_get_eq, if_neg hn, Int.toNat_natCast]
    exact ⟨rfl, windowTrace_length env gst.tallies.length n 0⟩

/-- Claim C10 witness: a concrete driver with one device whose file
always reads raw 1000, at iteration counts 1 and 3 (hypotheses and the
`n = 3` premise discharged). -/
theorem C10_witness :
    (dsStC.devices = some ["28-a"]
      ∧ (∀ j : Nat, readBatch dsStC.translator.apply
          ((fun _ _ => lines1000) j) ["28-a"] =
          Except.ok [some (DS18B20.to_celsius 1000)])
      ∧ ((3 : Nat) : Int) ≠ 1)
    ∧ DS18B20.get dsStC (fun _ _ => lines1000) 1 =
        Except.ok (GetResult.single [some (DS18B20.to_celsius 1000)])
    ∧ DS18B20.get dsStC (fun _ _ => lines1000) ((3 : Nat) : Int) =
        Except.ok (GetResult.multi ((List.range 3).map
          (fun _ => [some (DS18B20.to_celsius 1000)]))) :=
  ⟨⟨rfl, fun _ => rfl, by decide⟩,
    (C10_get_shape dsStC (fun _ _ => lines1000) ["28-a"]
      (fun _ => [some (DS18B20.to_celsius 1000)]) env57 gmSt0 rfl
      (fun _ => rfl)).1,
    ((C10_get_shape dsStC (fun _ _ => lines1000) ["28-a"]
      (fun _ => [some (DS18B20.to_celsius 1000)]) env57 gmSt0 rfl
      (fun _ => rfl)).2.1 3 (by decide)).1⟩

/-- Claim C3: for every driver instance with a non-empty active endpoint
set, a non-negative iteration count `n` (with enough fuel) makes `run`
invoke the handler exactly `n` times and exit normally; every invocation
goes to the supplied handler and delivers a batch with one entry per
active endpoint, in endpoint order (the DS18B20 batch of iteration `j` is
literally `devs.map (dv j)`). -/
theorem C3_run_invocations (st : DS18B20State) (devs : List String)
    (files : Nat → String → List String) (dv : Nat → String → Option ℚ)
    (h : Handler) (kw : String) (n fuel : Nat) (env : TallyEnv)
    (gst : GiesOMatState) (gh : Handler) (gkw : String)
    (hdev : st.devices = some devs) (hne : devs ≠ [])
    (hread : ∀ j d, readDevice st.translator.apply (files j d) =
      Except.ok (dv j d))
    (hfuel : n ≤ fuel)
    (hlen : gst.tallies.length = gst.gpio.length) (hgne : gst.gpio ≠ []) :
    (DS18B20.run st files h kw fuel (n : Int)).calls =
        callsOf h kw ((List.range n).map (fun j => devs.map (dv j)))
    ∧ (DS18B20.run st files h kw fuel (n : Int)).stop = RunEnd.done
    ∧ (DS18B20.run st files h kw fuel (n : Int)).calls.length = n
    ∧ (∀ c ∈ (DS18B20.run st files h kw fuel (n : Int)).calls,
        c.fn = h ∧ c.batch.length = devs.length)
    ∧ (GiesOMat.run env gst gh gkw fuel (n : Int)).stop = RunEnd.done
    ∧ (GiesOMat.run env gst gh gkw fuel (n : Int)).calls.length = n
    ∧ (∀ c ∈ (GiesOMat.run env gst gh gkw fuel (n : Int)).calls,
        c.fn = gh ∧ c.batch.length = gst.gpio.length) := by
  have hbb : ∀ j, readBatch st.translator.apply (files j) devs =
      Except.ok (devs.map (dv j)) :=
    fun j => readBatch_map _ _ _ devs (fun d _ => hread j d)
  have hg : getBatches st files n 0 =
      Except.ok ((List.range n).map (fun j => devs.map (dv j))) :=
    getBatches_ok_zero st files devs (fun j => devs.map (dv j)) hdev hbb n
  have hds : DS18B20.run st files h kw fuel (n : Int) =
      { calls := callsOf h kw ((List.range n).map (fun j => devs.map (dv j))),
        stop := RunEnd.done } :=
    ds_run_aux_done st files h kw n fuel 0 _ hfuel hg
  have hgm := pulseRunAux_done env gh gkw n fuel 1
    (addEdges (env.edges 0) 0 (gst.tallies.map (fun _ => 0))) hfuel
  have hrun : GiesOMat.run env gst gh gkw fuel (n : Int) =
      pulseRunAux env gh gkw fuel (n : Int) 1
        (addEdges (env.edges 0) 0 (gst.tallies.map (fun _ => 0))) := rfl
  refine ⟨by rw [hds], by rw [hds], by rw [hds]; simp [callsOf], ?_, ?_, ?_, ?_⟩
  · intro c hc
    rw [hds] at hc
    simp only [callsOf, List.mem_map] at hc
    obtain ⟨b, ⟨j, _, rfl⟩, rfl⟩ := hc
    exact ⟨rfl, by simp⟩
  · rw [hrun]
    exact hgm.2
  · rw [hrun, hgm.1]
    simp [callsOf, tallyLoop_length]
  · intro c hc
    rw [hrun, hgm.1] at hc
    simp only [callsOf, List.mem_map] at hc
    obtain ⟨b, hbmem, rfl⟩ := hc
    refine ⟨rfl, ?_⟩
    have hb := tallyLoop_mem_length env n 1
      (addEdges (env.edges 0) 0 (gst.tallies.map (fun _ => 0))) b hbmem
    simp only [hb, addEdges_length, List.length_map]
    exact hlen

/-- Claim C3 witness: one device reading raw 1000 at each of 2
iterations, and a one-pin pulse driver, with all hypotheses discharged at
concrete values. -/
theorem C3_witness :
    (dsStC.devices = some ["28-a"] ∧ (["28-a"] : List String) ≠ []
      ∧ (∀ (j : Nat) (d : String), readDevice dsStC.translator.apply
          ((fun _ _ => lines1000) j d) =
          Except.ok ((fun _ _ => some (DS18B20.to_celsius 1000)) j d))
      ∧ (2 : Nat) ≤ 2 ∧ gmSt0.tallies.length = gmSt0.gpio.length
      ∧ gmSt0.gpio ≠ [])
    ∧ (DS18B20.run dsStC (fun _ _ => lines1000) Handler.defaultFunctor "" 2
        ((2 : Nat) : Int)).calls =
        callsOf Handler.defaultFunctor "" ((List.range 2).map
          (fun j => (["28-a"] : List String).map
            ((fun _ _ => some (DS18B20.to_celsius 1000)) j)))
    ∧ (DS18B20.run dsStC (fun _ _ => lines1000) Handler.defaultFunctor "" 2
        ((2 : Nat) : Int)).calls.length = 2
    ∧ (GiesOMat.run env57 gmSt0 Handler.defaultFunctor "" 2
        ((2 : Nat) : Int)).calls.length = 2 :=
  ⟨⟨rfl, by decide, fun _ _ => rfl, by decide, rfl, by decide⟩,
    (C3_run_invocations dsStC ["28-a"] (fun _ _ => lines1000)
      (fun _ _ => some (DS18B20.to_celsius 1000)) Handler.defaultFunctor "" 2 2
      env57 gmSt0 Handler.defaultFunctor "" rfl (by decide) (fun _ _ => rfl)
      (by decide) rfl (by decide)).1,
    (C3_run_invocations dsStC ["28-a"] (fun _ _ => lines1000)
      (fun _ _ => some (DS18B20.to_celsius 1000)) Handler.defaultFunctor "" 2 2
      env57 gmSt0 Handler.defaultFunctor "" rfl (by decide) (fun _ _ => rfl)
      (by decide) rfl (by decide)).2.2.1,
    (C3_run_invocations dsStC ["28-a"] (fun _ _ => lines1000)
      (fun _ _ => some (DS18B20.to_celsius 1000)) Handler.defaultFunctor "" 2 2
      env57 gmSt0 Handler.defaultFunctor "" rfl (by decide) (fun _ _ => rfl)
      (by decide) rfl (by decide)).2.2.2.2.2.1⟩
